import Mathlib

/-!
Verification of the MPM (material point method) numerical core:
the quadratic B-spline weight function, grid indexing, the 2x2 SVD,
the constitutive update and the particle-to-grid (P2G) scatter kernel.

The embedding models the Rust source's `f32` arithmetic as exact
arithmetic: the pure weight/scatter layer is stated over an arbitrary
linear ordered field (instantiated at `ℚ` for executable statements),
while the SVD / constitutive layer, which needs `sqrt` and `exp`, is
stated over `ℝ`.  Machine floats are rationals, so every concrete
input below is the exact value of a representable `f32`.
-/

set_option linter.unusedSectionVars false

namespace MpmCore

/-- Model of `glam::Vec2` (a pair of scalars, field names `x`, `y`). -/
structure Vec2 (K : Type) where
  x : K
  y : K
deriving DecidableEq

/-- Model of `glam::Mat2`, column-major as in glam: two column vectors. -/
structure Mat2 (K : Type) where
  x_axis : Vec2 K
  y_axis : Vec2 K
deriving DecidableEq

variable {K : Type} [LinearOrderedField K]

instance : Add (Vec2 K) := ⟨fun a b => ⟨a.x + b.x, a.y + b.y⟩⟩

instance : Sub (Vec2 K) := ⟨fun a b => ⟨a.x - b.x, a.y - b.y⟩⟩

instance : Neg (Vec2 K) := ⟨fun a => ⟨-a.x, -a.y⟩⟩

instance : SMul K (Vec2 K) := ⟨fun c v => ⟨c * v.x, c * v.y⟩⟩

/-- Componentwise division of a vector by a scalar (`glam` `Vec2 / f32`). -/
instance : HDiv (Vec2 K) K (Vec2 K) := ⟨fun v c => ⟨v.x / c, v.y / c⟩⟩

/-- Dot product, as `glam::Vec2::dot`. -/
def Vec2.dot (a b : Vec2 K) : K := a.x * b.x + a.y * b.y

/-- Squared length, as `glam::Vec2::length_squared`. -/
def Vec2.length_squared (v : Vec2 K) : K := v.x * v.x + v.y * v.y

@[simp] theorem Vec2.add_def (a b : Vec2 K) : a + b = ⟨a.x + b.x, a.y + b.y⟩ := rfl

@[simp] theorem Vec2.sub_def (a b : Vec2 K) : a - b = ⟨a.x - b.x, a.y - b.y⟩ := rfl

@[simp] theorem Vec2.neg_def (a : Vec2 K) : -a = ⟨-a.x, -a.y⟩ := rfl

@[simp] theorem Vec2.smul_def (c : K) (v : Vec2 K) : c • v = ⟨c * v.x, c * v.y⟩ := rfl

@[simp] theorem Vec2.div_def (v : Vec2 K) (c : K) : v / c = ⟨v.x / c, v.y / c⟩ := rfl

/-- `glam::Mat2::from_cols`. -/
def Mat2.from_cols (c0 c1 : Vec2 K) : Mat2 K := ⟨c0, c1⟩

/-- `glam::Mat2::IDENTITY`. -/
def Mat2.identity : Mat2 K := ⟨⟨1, 0⟩, ⟨0, 1⟩⟩

/-- `glam::Mat2::ZERO`. -/
def Mat2.zero : Mat2 K := ⟨⟨0, 0⟩, ⟨0, 0⟩⟩

/-- `glam::Mat2::transpose`. -/
def Mat2.transpose (m : Mat2 K) : Mat2 K :=
  ⟨⟨m.x_axis.x, m.y_axis.x⟩, ⟨m.x_axis.y, m.y_axis.y⟩⟩

/-- `glam::Mat2::from_diagonal`. -/
def Mat2.from_diagonal (d : Vec2 K) : Mat2 K := ⟨⟨d.x, 0⟩, ⟨0, d.y⟩⟩

/-- Matrix-vector product `glam::Mat2::mul_vec2` (column-major). -/
def Mat2.mul_vec2 (m : Mat2 K) (v : Vec2 K) : Vec2 K :=
  ⟨m.x_axis.x * v.x + m.y_axis.x * v.y, m.x_axis.y * v.x + m.y_axis.y * v.y⟩

/-- Matrix product `glam::Mat2::mul_mat2` (also the `*` operator). -/
instance : Mul (Mat2 K) := ⟨fun a b => ⟨a.mul_vec2 b.x_axis, a.mul_vec2 b.y_axis⟩⟩

instance : Add (Mat2 K) := ⟨fun a b => ⟨a.x_axis + b.x_axis, a.y_axis + b.y_axis⟩⟩

instance : Sub (Mat2 K) := ⟨fun a b => ⟨a.x_axis - b.x_axis, a.y_axis - b.y_axis⟩⟩

instance : SMul K (Mat2 K) := ⟨fun c m => ⟨c • m.x_axis, c • m.y_axis⟩⟩

@[simp] theorem Mat2.mul_def (a b : Mat2 K) :
    a * b = ⟨a.mul_vec2 b.x_axis, a.mul_vec2 b.y_axis⟩ := rfl

@[simp] theorem Mat2.add_cols (a b : Mat2 K) :
    a + b = ⟨a.x_axis + b.x_axis, a.y_axis + b.y_axis⟩ := rfl

@[simp] theorem Mat2.sub_cols (a b : Mat2 K) :
    a - b = ⟨a.x_axis - b.x_axis, a.y_axis - b.y_axis⟩ := rfl

@[simp] theorem Mat2.smul_cols (c : K) (m : Mat2 K) :
    c • m = ⟨c • m.x_axis, c • m.y_axis⟩ := rfl

/-- `glam::Mat2::determinant`. -/
def Mat2.determinant (m : Mat2 K) : K :=
  m.x_axis.x * m.y_axis.y - m.x_axis.y * m.y_axis.x

/-! ## Simulation constants, from `shared/src/lib.rs` -/

/-- `QUALITY` constant. -/
def QUALITY : ℕ := 1

/-- `N_PARTICLES = 9 * QUALITY * QUALITY`. -/
def N_PARTICLES : ℕ := 9 * QUALITY * QUALITY

/-- `N_GRID = 128 * QUALITY`, the number of grid cells along one dimension. -/
def N_GRID : ℕ := 128 * QUALITY

/-- Modelled from the spec: the constant `N_GRID_X` is referenced by
`grid.rs` and `p2g.rs` but its definition is absent from the source
snapshot; the spec fixes the grid as `grid_dim x grid_dim` with the same
dimension as `N_GRID`, so `N_GRID_X = N_GRID = 128`. -/
def N_GRID_X : ℕ := N_GRID

/-- `WORKGROUP_SIZE` for 1-d compute dispatch. -/
def WORKGROUP_SIZE : ℕ := 64

/-- `div_ceil_u32(n, d) = n / d + ((n % d) != 0) as u32`. -/
def div_ceil_u32 (n d : ℕ) : ℕ := n / d + (if n % d ≠ 0 then 1 else 0)

/-- `num_workgroups_1d`: rounded-up 1-d dispatch size `[ceil(n/64), 1, 1]`. -/
def num_workgroups_1d (num_elements : ℕ) : ℕ × ℕ × ℕ :=
  (div_ceil_u32 num_elements WORKGROUP_SIZE, 1, 1)

/-- `DX = 1.0 / N_GRID`: grid cell spacing. -/
def DX : K := 1 / (N_GRID : K)

/-- `INV_DX = N_GRID as f32`. -/
def INV_DX : K := (N_GRID : K)

/-- `DT = 1e-4 / QUALITY`. -/
def DT : K := (1 / 10000) / (QUALITY : K)

/-- `P_VOL = (DX * 0.5) * (DX * 0.5)`. -/
def P_VOL : K := (DX * (1 / 2)) * (DX * (1 / 2))

/-- `P_RHO = 1.0`. -/
def P_RHO : K := 1

/-- `P_MASS = P_VOL * P_RHO`, the reference particle mass. -/
def P_MASS : K := P_VOL * P_RHO

/-- `YOUNGS_MODULUS = 5e3`. -/
def YOUNGS_MODULUS : K := 5000

/-- `POISSON_RATIO = 0.2`. -/
def POISSON_RATIO : K := 1 / 5

/-- Lame parameter `MU_0 = E / (2 (1 + nu))`. -/
def MU_0 : K := YOUNGS_MODULUS / (2 * (1 + POISSON_RATIO ))

/-- Lame parameter `LAMBDA_0 = E nu / ((1 + nu)(1 - 2 nu))`. -/
def LAMBDA_0 : K :=
  YOUNGS_MODULUS * POISSON_RATIO / ((1 + POISSON_RATIO ) * (1 - 2 * POISSON_RATIO ))

/-! ## Weight functions, from `shared/src/mpm_utils.rs` -/

/-- `quadratic_weight` exactly as written in the source: note that the
middle branch computes `0.5 * (1.5 - x) * (1.5 - x)` using `x` itself,
not the absolute value `x_abs` that the function computes and tests. -/
def quadratic_weight (x : K) : K :=
  let x_abs := |x|
  if x_abs < 1 / 2 then 3 / 4 - x * x
  else if x_abs < 3 / 2 then (1 / 2) * (3 / 2 - x) * (3 / 2 - x)
  else 0

/-- Modelled from the spec: the quadratic B-spline weight as the spec
(and the source's own doc comment, referencing the standard reference
formula) states it, with the middle branch symmetric in `|t|`. -/
def quadratic_weight_claim (t : K) : K :=
  if |t| < 1 / 2 then 3 / 4 - t * t
  else if |t| < 3 / 2 then (1 / 2) * (3 / 2 - |t|) * (3 / 2 - |t|)
  else 0

/-- `quadratic_weight_2d`: separable product of the 1-d weights. -/
def quadratic_weight_2d (fx : Vec2 K) : K :=
  quadratic_weight fx.x * quadratic_weight fx.y

/-! ## Grid model, from `shared/src/grid.rs` -/

/-- `GridCell`: momentum/velocity vector `v` and scalar `mass`. -/
structure GridCell (K : Type) where
  v : Vec2 K
  mass : K

/-- The all-zero grid, as produced by the external grid-clear pass. -/
def zeroGrid : ℕ → GridCell K := fun _ => ⟨⟨0, 0⟩, 0⟩

/-- Modelled from the spec: `linear_grid_index_ivec_unchecked` is called
by `p2g.rs` but absent from the source snapshot of `grid.rs`; its
checked siblings there all compute `y * N_GRID_X + x`, and the spec
describes a row-linearised `grid_dim x grid_dim` array, so the unchecked
variant is the same linear index (the caller has already established
`0 ≤ x, y < N_GRID_X`). -/
def linear_grid_index_ivec_unchecked (idx : ℤ × ℤ) : ℕ :=
  (idx.2 * (N_GRID_X : ℤ) + idx.1).toNat

/-- `STENCIL_OFFSETS`: the 3x3 stencil offsets, in source order. -/
def STENCIL_OFFSETS : List (ℤ × ℤ) :=
  [(-1, -1), (0, -1), (1, -1), (-1, 0), (0, 0), (1, 0), (-1, 1), (0, 1), (1, 1)]

/-! ## The P2G scatter loop, from `shaders/src/p2g.rs` lines 99-128 -/

/-- The two atomic adds at one grid cell: `mass += mass_add`,
`v += v_add` at linear index `idx`. -/
def gridAdd (g : ℕ → GridCell K) (idx : ℕ) (v_add : Vec2 K) (mass_add : K) :
    ℕ → GridCell K :=
  fun n => if n = idx then ⟨(g n).v + v_add, (g n).mass + mass_add⟩ else g n

/-- The bounds test on a stencil neighbour `grid_idx`: the source
`continue`s (skips the cell) exactly when this holds. -/
def skipCell (gi : ℤ × ℤ) : Prop :=
  gi.1 < 0 ∨ gi.2 < 0 ∨ (N_GRID_X : ℤ) ≤ gi.1 ∨ (N_GRID_X : ℤ) ≤ gi.2

instance (gi : ℤ × ℤ) : Decidable (skipCell gi) := by
  unfold skipCell; infer_instance

variable [FloorRing K]

/-- The integer cell containing the particle:
`(xp * INV_DX).floor().as_ivec2()`. -/
def containingIdx (xp : Vec2 K) : ℤ × ℤ := (⌊xp.x * INV_DX⌋, ⌊xp.y * INV_DX⌋)

/-- One iteration of the stencil loop of `p2g` for offset `o`:
bounds check, unchecked linear index, weight from the (unscaled)
offset `xp - grid_pos`, then the two atomic adds. -/
def scatterOne (xp vp : Vec2 K) (affine_stress : Mat2 K)
    (g : ℕ → GridCell K) (o : ℤ × ℤ) : ℕ → GridCell K :=
  let ci := containingIdx xp
  let containing_center : Vec2 K := ⟨((ci.1 : K) + 1 / 2) * DX, ((ci.2 : K) + 1 / 2) * DX⟩
  let gi : ℤ × ℤ := (ci.1 + o.1, ci.2 + o.2)
  if skipCell gi then g
  else
    let index := linear_grid_index_ivec_unchecked gi
    let grid_pos : Vec2 K := containing_center + ⟨(o.1 : K) * DX, (o.2 : K) * DX⟩
    let weight := quadratic_weight_2d (xp - grid_pos)
    let mass_add := weight * P_MASS
    let v_add := weight • ((P_MASS : K) • vp + affine_stress.mul_vec2 grid_pos)
    gridAdd g index v_add mass_add

/-- The whole stencil loop (`for o in 0..9`) of one `p2g` invocation. -/
def p2gScatter (xp vp : Vec2 K) (affine_stress : Mat2 K)
    (g : ℕ → GridCell K) : ℕ → GridCell K :=
  STENCIL_OFFSETS.foldl (scatterOne xp vp affine_stress) g

/-- Total mass over the whole grid buffer. -/
def totalGridMass (g : ℕ → GridCell K) : K :=
  ∑ n ∈ Finset.range (N_GRID_X * N_GRID_X), (g n).mass

/-- A linear cell index receives a contribution from a particle at `xp`
iff some stencil offset of the particle's containing cell passes the
bounds check and linearises to that index. -/
def touchesCell (xp : Vec2 K) (n : ℕ) : Prop :=
  ∃ o ∈ STENCIL_OFFSETS,
    ¬ skipCell ((containingIdx xp).1 + o.1, (containingIdx xp).2 + o.2) ∧
    linear_grid_index_ivec_unchecked
      ((containingIdx xp).1 + o.1, (containingIdx xp).2 + o.2) = n

instance (xp : Vec2 ℚ) (n : ℕ) : Decidable (touchesCell xp n) := by
  unfold touchesCell; infer_instance

/-- One whole P2G pass over a list of per-particle scatter inputs
(position, velocity, affine stress), starting from a given grid. -/
def p2gPass (ps : List (Vec2 K × Vec2 K × Mat2 K)) (g : ℕ → GridCell K) :
    ℕ → GridCell K :=
  ps.foldl (fun g0 pr => p2gScatter pr.1 pr.2.1 pr.2.2 g0) g

/-- `clamp` on floats: `max` of the lower bound and `min` with the upper. -/
def clampf (x lo hi : K) : K := max (min x hi) lo

/-! ## The 2x2 SVD, from `shaders/src/svd.rs`

The source function `svd2x2_exact` is a single function whose local
`let` bindings are flattened here into one named definition per local,
each carrying the same name and the same right-hand side as the
corresponding source binding. -/

open scoped Classical

/-- Scale-safe `sqrt(x^2 + y^2)`: `hypot2` from `svd.rs`. -/
noncomputable def hypot2 (x y : ℝ) : ℝ :=
  let ax := |x|
  let ay := |y|
  let mn := if ax ≥ ay then (ax, ay) else (ay, ax)
  if mn.1 = 0 then 0 else mn.1 * Real.sqrt (1 + (mn.2 / mn.1) * (mn.2 / mn.1))

/-- `det_a = a11 * a22 - a12 * a21` (glam is column-major:
`a11 = x_axis.x`, `a12 = y_axis.x`, `a21 = x_axis.y`, `a22 = y_axis.y`). -/
def detA (a : Mat2 ℝ) : ℝ := a.x_axis.x * a.y_axis.y - a.y_axis.x * a.x_axis.y

/-- `alpha = a11^2 + a21^2`, entry (1,1) of `S = A^T A`. -/
def alpha (a : Mat2 ℝ) : ℝ := a.x_axis.x * a.x_axis.x + a.x_axis.y * a.x_axis.y

/-- `beta = a11 a12 + a21 a22`, the off-diagonal of `S = A^T A`. -/
def beta (a : Mat2 ℝ) : ℝ := a.x_axis.x * a.y_axis.x + a.x_axis.y * a.y_axis.y

/-- `gamma = a12^2 + a22^2`, entry (2,2) of `S = A^T A`. -/
def gamma (a : Mat2 ℝ) : ℝ := a.y_axis.x * a.y_axis.x + a.y_axis.y * a.y_axis.y

/-- `r = hypot2(alpha - gamma, 2 beta)`. -/
noncomputable def rS (a : Mat2 ℝ) : ℝ := hypot2 (alpha a - gamma a) (2 * beta a)

/-- `lambda1 = 0.5 * max(alpha + gamma + r, 0)`: the larger eigenvalue of `S`. -/
noncomputable def lambda1 (a : Mat2 ℝ) : ℝ :=
  (1 / 2) * max ((alpha a + gamma a) + rS a) 0

/-- `f32::MIN_POSITIVE = 2^(-126)`, as an exact rational. -/
noncomputable def f32MinPos : ℝ := 1 / 2 ^ 126

/-- `lambda1_safe = lambda1.max(f32::MIN_POSITIVE)`. -/
noncomputable def lambda1_safe (a : Mat2 ℝ) : ℝ := max (lambda1 a) f32MinPos

/-- `lambda2 = max(det(A)^2 / lambda1_safe, 0)`. -/
noncomputable def lambda2 (a : Mat2 ℝ) : ℝ :=
  max (detA a * detA a / lambda1_safe a) 0

/-- The eigenvector candidate for `lambda1`: whichever of the two
algebraically equivalent formulas has the larger first component. -/
noncomputable def v0cand (a : Mat2 ℝ) : Vec2 ℝ :=
  if |beta a| > |lambda1 a - alpha a| then ⟨beta a, lambda1 a - alpha a⟩
  else ⟨lambda1 a - gamma a, beta a⟩

/-- `glam::Vec2::length = sqrt(dot(self, self))`. -/
noncomputable def Vec2.length (v : Vec2 ℝ) : ℝ := Real.sqrt (v.dot v)

/-- `glam::Vec2::normalize = self * self.length().recip()`. -/
noncomputable def Vec2.normalize (v : Vec2 ℝ) : Vec2 ℝ := (1 / v.length) • v

/-- `v0` after the pathological-zero fallback and normalisation. -/
noncomputable def v0sel (a : Mat2 ℝ) : Vec2 ℝ :=
  if (v0cand a).length_squared = 0 then
    (if alpha a ≥ gamma a then ⟨1, 0⟩ else ⟨0, 1⟩)
  else (v0cand a).normalize

/-- `v_mat` before the column swap: `[v0 | perp(v0)]`. -/
noncomputable def vPre (a : Mat2 ℝ) : Mat2 ℝ :=
  Mat2.from_cols (v0sel a) ⟨-(v0sel a).y, (v0sel a).x⟩

/-- `d11 = c0^T S c0` for `c0` the first column of `v_mat`. -/
noncomputable def d11 (a : Mat2 ℝ) : ℝ :=
  alpha a * ((vPre a).x_axis.x * (vPre a).x_axis.x)
    + 2 * beta a * ((vPre a).x_axis.x * (vPre a).x_axis.y)
    + gamma a * ((vPre a).x_axis.y * (vPre a).x_axis.y)

/-- `d22 = c1^T S c1` for `c1` the second column of `v_mat`. -/
noncomputable def d22 (a : Mat2 ℝ) : ℝ :=
  alpha a * ((vPre a).y_axis.x * (vPre a).y_axis.x)
    + 2 * beta a * ((vPre a).y_axis.x * (vPre a).y_axis.y)
    + gamma a * ((vPre a).y_axis.y * (vPre a).y_axis.y)

/-- `v_mat` after the swap that pairs column 0 with the larger eigenvalue. -/
noncomputable def vMat (a : Mat2 ℝ) : Mat2 ℝ :=
  if d22 a > d11 a then Mat2.from_cols (vPre a).y_axis (vPre a).x_axis else vPre a

/-- `s1 = sqrt(lambda1)`. -/
noncomputable def s1v (a : Mat2 ℝ) : ℝ := Real.sqrt (lambda1 a)

/-- The value of `s2` before the rank-1 guard: `sqrt(lambda2)`. -/
noncomputable def s2pre (a : Mat2 ℝ) : ℝ := Real.sqrt (lambda2 a)

/-- `b_mat = a * v_mat`. -/
noncomputable def bMat (a : Mat2 ℝ) : Mat2 ℝ := a * vMat a

/-- `u0 = b_mat.x_axis / s1` when `s1 > 0`, else the standard basis vector. -/
noncomputable def u0raw (a : Mat2 ℝ) : Vec2 ℝ :=
  if s1v a > 0 then (bMat a).x_axis / s1v a else ⟨1, 0⟩

/-- `s2_tiny = s2 <= f32::MIN_POSITIVE * 8.0`. -/
def s2tiny (a : Mat2 ℝ) : Prop := s2pre a ≤ f32MinPos * 8

/-- The robust rank-1 guard: `s2 == 0 || det_a == 0 || s2_tiny`. -/
def rank1Guard (a : Mat2 ℝ) : Prop := s2pre a = 0 ∨ detA a = 0 ∨ s2tiny a

/-- `s2` after the guard, locked to zero on the rank-1 path. -/
noncomputable def s2v (a : Mat2 ℝ) : ℝ := if rank1Guard a then 0 else s2pre a

/-- `u1` before Gram-Schmidt: a perpendicular of `u0` on the rank-1 path,
otherwise `b_mat.y_axis / s2`. -/
noncomputable def u1raw (a : Mat2 ℝ) : Vec2 ℝ :=
  if rank1Guard a then ⟨-(u0raw a).y, (u0raw a).x⟩ else (bMat a).y_axis / s2pre a

/-- `dot = u0.dot(u1)`. -/
noncomputable def uDot (a : Mat2 ℝ) : ℝ := (u0raw a).dot (u1raw a)

/-- `u1 = (u1 - u0 * dot).normalize()`: the defensive Gram-Schmidt step. -/
noncomputable def u1gs (a : Mat2 ℝ) : Vec2 ℝ :=
  ((u1raw a) - uDot a • (u0raw a)).normalize

/-- `u0 = u0.normalize()`. -/
noncomputable def u0n (a : Mat2 ℝ) : Vec2 ℝ := (u0raw a).normalize

/-- `u_mat` before the determinant sign fix. -/
noncomputable def uPre (a : Mat2 ℝ) : Mat2 ℝ := Mat2.from_cols (u0n a) (u1gs a)

/-- The result record of `svd2x2_exact`. -/
structure Svd2 where
  u : Mat2 ℝ
  s : Vec2 ℝ
  v : Mat2 ℝ

/-- `svd2x2_exact`: assembles the flattened locals, flipping the second
columns of `U` and `V` together when `det(U) < 0`. -/
noncomputable def svd2x2_exact (a : Mat2 ℝ) : Svd2 :=
  if (uPre a).determinant < 0 then
    ⟨Mat2.from_cols (uPre a).x_axis (-(uPre a).y_axis), ⟨s1v a, s2v a⟩,
      Mat2.from_cols (vMat a).x_axis (-(vMat a).y_axis)⟩
  else ⟨uPre a, ⟨s1v a, s2v a⟩, vMat a⟩

/-! ## Materials and the constitutive update, from `shaders/src/p2g.rs` -/

/-- The material enum; the kernel names discriminant 1 `Jelly`
(the shared crate snapshot calls the same discriminant `Solid`). -/
inductive Material
  | Fluid
  | Jelly
  | Snow
deriving DecidableEq

/-- `MaterialPod::to_material`: bytes 0, 1, 2 map to the enum; any other
stored byte panics in the source, modelled as `none`. -/
def to_material (b : ℕ) : Option Material :=
  match b with
  | 0 => some Material.Fluid
  | 1 => some Material.Jelly
  | 2 => some Material.Snow
  | _ => none

/-- The per-singular-value plasticity clamp: only Snow clamps, to
`[1 - 2.5e-2, 1 + 4.5e-3]`. -/
noncomputable def snowClamp (material : Material) (s : ℝ) : ℝ :=
  if material = Material.Snow then clampf s (1 - 25 / 1000) (1 + 45 / 10000) else s

/-- The deformation-gradient update `F = I + DT * C * F`. -/
noncomputable def updatedF (C F : Mat2 ℝ) : Mat2 ℝ :=
  Mat2.identity + (DT : ℝ) • (C * F)

/-- The per-particle constitutive computation of `p2g` (source lines
50-97): updated `F`, updated plastic `J`, and the affine stress.  The
`for d in 0..2` loop over the two singular values is unrolled. -/
noncomputable def constitutive (material : Material) (C F0 : Mat2 ℝ) (Jp0 : ℝ) :
    Mat2 ℝ × ℝ × Mat2 ℝ :=
  let F1 := updatedF C F0
  let h := clampf (Real.exp (10 * (1 - Jp0))) (1 / 10) 5
  let mu := match material with
    | Material.Fluid => 0
    | Material.Jelly => (MU_0 : ℝ) * (3 / 10)
    | Material.Snow => (MU_0 : ℝ) * h
  let lambda := match material with
    | Material.Fluid => 0
    | Material.Jelly => (LAMBDA_0 : ℝ) * (3 / 10)
    | Material.Snow => (LAMBDA_0 : ℝ) * h
  let svdr := svd2x2_exact F1
  let new_sig0 := snowClamp material svdr.s.x
  let Jp1 := Jp0 * (svdr.s.x / new_sig0)
  let new_sig1 := snowClamp material svdr.s.y
  let Jp2 := Jp1 * (svdr.s.y / new_sig1)
  let J := (1 * new_sig0) * new_sig1
  let F2 := match material with
    | Material.Fluid => Real.sqrt J • (Mat2.identity : Mat2 ℝ)
    | _ => (svdr.u * Mat2.from_diagonal ⟨new_sig0, new_sig1⟩) * svdr.v.transpose
  let stress := (2 * mu) • ((F2 - svdr.u * svdr.v.transpose) * F2.transpose)
      + (lambda * (J - 1) * J) • (Mat2.identity : Mat2 ℝ)
  let affine_stress := stress + (P_MASS : ℝ) • C
  (F2, Jp2, affine_stress)

/-! ## The particle store and the full kernel -/

/-- One element of the `particle_matrices` buffer: the APIC matrix `C`
and the deformation gradient `F`. -/
structure ParticleMatrices where
  C : Mat2 ℝ
  F : Mat2 ℝ

/-- One element of the `particle_deformation` buffer: plastic `J`. -/
structure ParticleDeformation where
  J : ℝ

/-- The storage buffers bound to one `p2g` dispatch. -/
structure PState where
  xs : List (Vec2 ℝ)
  vs : List (Vec2 ℝ)
  grid : ℕ → GridCell ℝ
  particle_matrices : List ParticleMatrices
  particle_deformation : List ParticleDeformation
  particle_material : List ℕ

/-- One `p2g` invocation for particle index `p`: the buffer reads (which
abort on an out-of-range index, as a Rust slice index does), the
material decode (which panics on a bad tag), then the constitutive
update, the two particle-store writes and the grid scatter. -/
noncomputable def p2g (st : PState) (p : ℕ) : Option PState := do
  let xp ← st.xs.get? p
  let vp ← st.vs.get? p
  let pm ← st.particle_matrices.get? p
  let pd ← st.particle_deformation.get? p
  let mb ← st.particle_material.get? p
  let material ← to_material mb
  let res := constitutive material pm.C pm.F pd.J
  some { xs := st.xs
         vs := st.vs
         grid := p2gScatter xp vp res.2.2 st.grid
         particle_matrices := st.particle_matrices.set p ⟨pm.C, res.1⟩
         particle_deformation := st.particle_deformation.set p ⟨res.2.1⟩
         particle_material := st.particle_material }

/-! ## Concrete inputs used by the claims -/

/-- A particle exactly at the centre of interior cell (64, 64):
`(64.5 * DX, 64.5 * DX) = (129/256, 129/256)`, exactly representable. -/
def xpCenter : Vec2 ℚ := ⟨129 / 256, 129 / 256⟩

/-- `C = diag(-10000, -10000)`: drives `F1 = I + DT * C * I` to the zero
matrix, whose SVD is fully degenerate (`s1 = s2 = 0`). -/
noncomputable def cDegenerate : Mat2 ℝ := Mat2.from_cols ⟨-10000, 0⟩ ⟨0, -10000⟩

/-- `C = diag(-1000, 0)`: drives `F1 = diag(0.9, 1)`, a compressive
update with one singular value below the Snow yield bound 0.975. -/
noncomputable def cCompress : Mat2 ℝ := Mat2.from_cols ⟨-1000, 0⟩ ⟨0, 0⟩

/-- The rank-1 matrix with columns `(-4, 1)` and `(-1, 0.25)`. -/
noncomputable def aRank1 : Mat2 ℝ := Mat2.from_cols ⟨-4, 1⟩ ⟨-1, 1 / 4⟩

/-- The host-side buffers of `main.rs`: `N_PARTICLES = 9` particles
(`v = (1e-6, 0)`, `C = 0`, `F = I`, `J = 1`, material byte 0). -/
noncomputable def stHost : PState :=
  { xs := List.replicate 9 ⟨0, 0⟩
    vs := List.replicate 9 ⟨1 / 1000000, 0⟩
    grid := zeroGrid
    particle_matrices := List.replicate 9 ⟨Mat2.zero, Mat2.identity⟩
    particle_deformation := List.replicate 9 ⟨1⟩
    particle_material := List.replicate 9 0 }

/-- The same buffers with an out-of-range material tag byte 3 stored. -/
noncomputable def stBadTag : PState :=
  { stHost with particle_material := List.replicate 9 3 }

/-- A single particle in corner cell (0, 0), with zero velocity and
zero affine stress, as a scatter-pass input list. -/
def psCorner : List (Vec2 ℚ × Vec2 ℚ × Mat2 ℚ) :=
  [(⟨1 / 256, 1 / 256⟩, ⟨0, 0⟩, Mat2.zero)]

/-- A single-particle store at position `(0.5, 0.5)`. -/
noncomputable def stOne : PState :=
  { xs := [⟨1 / 2, 1 / 2⟩]
    vs := [⟨0, 0⟩]
    grid := zeroGrid
    particle_matrices := [⟨Mat2.zero, Mat2.identity⟩]
    particle_deformation := [⟨1⟩]
    particle_material := [0] }

/-! ## Helper lemmas -/

theorem P_MASS_pos : (0 : K) < P_MASS := by
  norm_num [P_MASS, P_VOL, P_RHO, DX, N_GRID, QUALITY]

theorem quadratic_weight_nonneg (x : K) : 0 ≤ quadratic_weight x := by
  unfold quadratic_weight
  dsimp only
  split_ifs with h1 h2
  · nlinarith [abs_nonneg x, abs_mul_abs_self x, h1]
  · nlinarith [sq_nonneg (3 / 2 - x)]
  · exact le_refl 0

theorem quadratic_weight_2d_nonneg (v : Vec2 K) : 0 ≤ quadratic_weight_2d v :=
  mul_nonneg (quadratic_weight_nonneg v.x) (quadratic_weight_nonneg v.y)

theorem totalGridMass_gridAdd (g : ℕ → GridCell K) (idx : ℕ) (v_add : Vec2 K)
    (m_add : K) (h : idx < N_GRID_X * N_GRID_X) :
    totalGridMass (gridAdd g idx v_add m_add) = totalGridMass g + m_add := by
  unfold totalGridMass gridAdd
  have hmass : ∀ n, (if n = idx then GridCell.mk ((g n).v + v_add) ((g n).mass + m_add)
      else g n).mass = (g n).mass + (if n = idx then m_add else 0) := by
    intro n; split <;> simp
  simp only [hmass]
  rw [Finset.sum_add_distrib,
    Finset.sum_ite_eq' (Finset.range (N_GRID_X * N_GRID_X)) idx fun _ => m_add]
  simp [Finset.mem_range, h]

theorem totalGridMass_zeroGrid : totalGridMass (zeroGrid : ℕ → GridCell K) = 0 := by
  simp [totalGridMass, zeroGrid]

theorem scatterOne_cell_eq (xp vp : Vec2 K) (st : Mat2 K) (g : ℕ → GridCell K)
    (o : ℤ × ℤ) (n : ℕ)
    (h : skipCell ((containingIdx xp).1 + o.1, (containingIdx xp).2 + o.2) ∨
      linear_grid_index_ivec_unchecked
        ((containingIdx xp).1 + o.1, (containingIdx xp).2 + o.2) ≠ n) :
    (scatterOne xp vp st g o) n = g n := by
  unfold scatterOne gridAdd
  dsimp only
  rcases h with h | h
  · rw [if_pos h]
  · by_cases hs : skipCell ((containingIdx xp).1 + o.1, (containingIdx xp).2 + o.2)
    · rw [if_pos hs]
    · rw [if_neg hs]
      exact if_neg fun he => h he.symm

theorem scatterOne_mass_nonneg (xp vp : Vec2 K) (st : Mat2 K) (g : ℕ → GridCell K)
    (o : ℤ × ℤ) (n : ℕ) (h : 0 ≤ (g n).mass) :
    0 ≤ ((scatterOne xp vp st g o) n).mass := by
  unfold scatterOne gridAdd
  dsimp only
  by_cases hs : skipCell ((containingIdx xp).1 + o.1, (containingIdx xp).2 + o.2)
  · rw [if_pos hs]; exact h
  · rw [if_neg hs]
    split_ifs with he
    · exact add_nonneg h (mul_nonneg (quadratic_weight_2d_nonneg _) P_MASS_pos.le)
    · exact h

theorem p2gScatter_cell_untouched (xp vp : Vec2 K) (st : Mat2 K)
    (g : ℕ → GridCell K) (n : ℕ) (h : ¬ touchesCell xp n) :
    (p2gScatter xp vp st g) n = g n := by
  have h2 : ∀ o ∈ STENCIL_OFFSETS,
      skipCell ((containingIdx xp).1 + o.1, (containingIdx xp).2 + o.2) ∨
      linear_grid_index_ivec_unchecked
        ((containingIdx xp).1 + o.1, (containingIdx xp).2 + o.2) ≠ n := by
    intro o ho
    by_cases hs : skipCell ((containingIdx xp).1 + o.1, (containingIdx xp).2 + o.2)
    · exact Or.inl hs
    · exact Or.inr fun he => h ⟨o, ho, hs, he⟩
  unfold p2gScatter
  suffices H : ∀ (os : List (ℤ × ℤ)) (g : ℕ → GridCell K),
      (∀ o ∈ os, skipCell ((containingIdx xp).1 + o.1, (containingIdx xp).2 + o.2) ∨
        linear_grid_index_ivec_unchecked
          ((containingIdx xp).1 + o.1, (containingIdx xp).2 + o.2) ≠ n) →
      (os.foldl (scatterOne xp vp st) g) n = g n by
    exact H STENCIL_OFFSETS g h2
  intro os
  induction os with
  | nil => intro g _; rfl
  | cons o os ih =>
    intro g hall
    rw [List.foldl_cons, ih _ (fun o2 ho2 => hall o2 (List.mem_cons_of_mem o ho2)),
      scatterOne_cell_eq xp vp st g o n (hall o (List.mem_cons_self o os))]

theorem p2gScatter_mass_nonneg (xp vp : Vec2 K) (st : Mat2 K)
    (g : ℕ → GridCell K) (n : ℕ) (h : 0 ≤ (g n).mass) :
    0 ≤ ((p2gScatter xp vp st g) n).mass := by
  unfold p2gScatter
  suffices H : ∀ (os : List (ℤ × ℤ)) (g : ℕ → GridCell K), 0 ≤ (g n).mass →
      0 ≤ ((os.foldl (scatterOne xp vp st) g) n).mass by
    exact H STENCIL_OFFSETS g h
  intro os
  induction os with
  | nil => intro g hg; exact hg
  | cons o os ih =>
    intro g hg
    rw [List.foldl_cons]
    exact ih _ (scatterOne_mass_nonneg xp vp st g o n hg)

theorem p2gPass_cell_untouched (ps : List (Vec2 K × Vec2 K × Mat2 K))
    (g : ℕ → GridCell K) (n : ℕ) (h : ∀ pr ∈ ps, ¬ touchesCell pr.1 n) :
    (p2gPass ps g) n = g n := by
  unfold p2gPass
  induction ps generalizing g with
  | nil => rfl
  | cons pr ps ih =>
    rw [List.foldl_cons, ih _ (fun q hq => h q (List.mem_cons_of_mem pr hq)),
      p2gScatter_cell_untouched pr.1 pr.2.1 pr.2.2 g n (h pr (List.mem_cons_self pr ps))]

theorem p2gPass_mass_nonneg (ps : List (Vec2 K × Vec2 K × Mat2 K))
    (g : ℕ → GridCell K) (n : ℕ) (h : 0 ≤ (g n).mass) :
    0 ≤ ((p2gPass ps g) n).mass := by
  unfold p2gPass
  induction ps generalizing g with
  | nil => exact h
  | cons pr ps ih =>
    rw [List.foldl_cons]
    exact ih _ (p2gScatter_mass_nonneg pr.1 pr.2.1 pr.2.2 g n h)

theorem totalGridMass_scatterOne (xp vp : Vec2 K) (st : Mat2 K)
    (g : ℕ → GridCell K) (o : ℤ × ℤ)
    (hns : ¬ skipCell ((containingIdx xp).1 + o.1, (containingIdx xp).2 + o.2))
    (hlt : linear_grid_index_ivec_unchecked
      ((containingIdx xp).1 + o.1, (containingIdx xp).2 + o.2) < N_GRID_X * N_GRID_X) :
    totalGridMass (scatterOne xp vp st g o) = totalGridMass g +
      quadratic_weight_2d (xp -
        (⟨(((containingIdx xp).1 : K) + 1 / 2) * DX, (((containingIdx xp).2 : K) + 1 / 2) * DX⟩ +
          ⟨(o.1 : K) * DX, (o.2 : K) * DX⟩)) * P_MASS := by
  unfold scatterOne
  dsimp only
  rw [if_neg hns]
  exact totalGridMass_gridAdd g _ _ _ hlt

theorem qw_zero : quadratic_weight (0 : ℚ) = 3 / 4 := by
  unfold quadratic_weight
  norm_num

theorem qw_pos128 : quadratic_weight (1 / 128 : ℚ) = 12287 / 16384 := by
  unfold quadratic_weight
  dsimp only
  rw [abs_of_nonneg (by norm_num : (0 : ℚ) ≤ 1 / 128)]
  norm_num

theorem qw_neg128 : quadratic_weight (-(1 / 128) : ℚ) = 12287 / 16384 := by
  unfold quadratic_weight
  dsimp only
  rw [abs_of_nonpos (by norm_num : (-(1 / 128) : ℚ) ≤ 0)]
  norm_num

/-! ## Claim C2 -/

/-- C2: the claim states `quadratic_weight(t) = 0.5 * (1.5 - |t|)^2` on
`0.5 ≤ |t| < 1.5`, but at `t = -1` the source returns
`0.5 * (1.5 - t)^2 = 3.125` while the claimed formula gives `0.125`:
the middle branch of the source drops the absolute value. -/
theorem quadratic_weight_neg_input :
    quadratic_weight (-1 : ℚ) = 25 / 8 ∧ quadratic_weight_claim (-1 : ℚ) = 1 / 8 := by
  constructor <;> norm_num [quadratic_weight, quadratic_weight_claim]

/-! ## Claim C1 -/

/-- C1: evaluation of the code at the claim's own scenario.  For one
particle exactly at the centre of interior cell (64, 64), a single P2G
transfer from the all-zero grid yields total grid mass
`(2.25 - 2 * DX^2)^2 * P_MASS = (18431/8192)^2 * P_MASS ≈ 5.06 * P_MASS`,
more than five times the reference particle mass: the kernel passes the
raw physical offset `xp - grid_pos` (of size `DX`) to the weight; the
partition-of-unity sum claimed by the spec does not hold. -/
theorem p2g_center_mass_sum :
    totalGridMass (p2gScatter xpCenter ⟨0, 0⟩ Mat2.zero zeroGrid) =
      (18431 / 8192) ^ 2 * (P_MASS : ℚ) ∧
    5 * (P_MASS : ℚ) < totalGridMass (p2gScatter xpCenter ⟨0, 0⟩ Mat2.zero zeroGrid) := by
  have hci : containingIdx xpCenter = (64, 64) := by
    unfold containingIdx xpCenter INV_DX N_GRID QUALITY
    norm_num
  have key : totalGridMass (p2gScatter xpCenter ⟨0, 0⟩ Mat2.zero zeroGrid) =
      (18431 / 8192) ^ 2 * (P_MASS : ℚ) := by
    unfold p2gScatter STENCIL_OFFSETS
    simp only [List.foldl_cons, List.foldl_nil]
    rw [totalGridMass_scatterOne xpCenter ⟨0, 0⟩ Mat2.zero _ (1, 1)
        (by rw [hci]; decide) (by rw [hci]; decide),
      totalGridMass_scatterOne xpCenter ⟨0, 0⟩ Mat2.zero _ (0, 1)
        (by rw [hci]; decide) (by rw [hci]; decide),
      totalGridMass_scatterOne xpCenter ⟨0, 0⟩ Mat2.zero _ (-1, 1)
        (by rw [hci]; decide) (by rw [hci]; decide),
      totalGridMass_scatterOne xpCenter ⟨0, 0⟩ Mat2.zero _ (1, 0)
        (by rw [hci]; decide) (by rw [hci]; decide),
      totalGridMass_scatterOne xpCenter ⟨0, 0⟩ Mat2.zero _ (0, 0)
        (by rw [hci]; decide) (by rw [hci]; decide),
      totalGridMass_scatterOne xpCenter ⟨0, 0⟩ Mat2.zero _ (-1, 0)
        (by rw [hci]; decide) (by rw [hci]; decide),
      totalGridMass_scatterOne xpCenter ⟨0, 0⟩ Mat2.zero _ (1, -1)
        (by rw [hci]; decide) (by rw [hci]; decide),
      totalGridMass_scatterOne xpCenter ⟨0, 0⟩ Mat2.zero _ (0, -1)
        (by rw [hci]; decide) (by rw [hci]; decide),
      totalGridMass_scatterOne xpCenter ⟨0, 0⟩ Mat2.zero _ (-1, -1)
        (by rw [hci]; decide) (by rw [hci]; decide),
      totalGridMass_zeroGrid, hci]
    simp only [quadratic_weight_2d, Vec2.sub_def, Vec2.add_def, xpCenter]
    norm_num [DX, N_GRID, QUALITY, qw_zero, qw_pos128, qw_neg128, P_MASS, P_VOL, P_RHO]
  refine ⟨key, ?_⟩
  rw [key]
  exact mul_lt_mul_of_pos_right (by norm_num) (P_MASS_pos (K := ℚ))

/-! ## Claim C9 -/

/-- C9: every quantity added to a cell's mass is `weight * P_MASS` with
`weight ≥ 0`, and starting from the zeroed grid every cell's mass stays
nonnegative after a P2G pass over any particle list. -/
theorem p2g_mass_nonneg :
    (∀ v : Vec2 ℚ, 0 ≤ quadratic_weight_2d v) ∧
    ∀ (ps : List (Vec2 ℚ × Vec2 ℚ × Mat2 ℚ)) (n : ℕ),
      0 ≤ ((p2gPass ps zeroGrid) n).mass :=
  ⟨quadratic_weight_2d_nonneg,
    fun ps n => p2gPass_mass_nonneg ps zeroGrid n (le_refl 0)⟩

/-! ## Claim C8 -/

/-- C8: after a P2G pass from the all-zero grid, any linear cell index
that is in no particle's in-bounds 3x3 stencil (in particular any cell
whose only would-be contributions come from stencil neighbours failing
the `[0, N_GRID_X)` bounds check, which the kernel skips) has exactly
zero mass. -/
theorem p2g_untouched_cells_zero (ps : List (Vec2 ℚ × Vec2 ℚ × Mat2 ℚ)) (n : ℕ)
    (h : ∀ pr ∈ ps, ¬ touchesCell pr.1 n) :
    ((p2gPass ps zeroGrid) n).mass = 0 := by
  rw [p2gPass_cell_untouched ps zeroGrid n h]
  rfl

/-- Witness for C8: a particle in corner cell (0, 0); its offsets with
a negative coordinate are skipped, so linear index 127 (cell (127, 0),
where offset (-1, 1) would land if the index wrapped around) stays at
zero mass. -/
theorem p2g_untouched_cells_zero_witness :
    (∀ pr ∈ psCorner, ¬ touchesCell pr.1 127) ∧
    ((p2gPass psCorner zeroGrid) 127).mass = 0 := by
  have hci : containingIdx ((⟨1 / 256, 1 / 256⟩ : Vec2 ℚ)) = (0, 0) := by
    unfold containingIdx INV_DX N_GRID QUALITY
    norm_num
  have h : ∀ pr ∈ psCorner, ¬ touchesCell pr.1 127 := by
    intro pr hpr
    rw [psCorner, List.mem_singleton] at hpr
    subst hpr
    unfold touchesCell
    rw [hci]
    decide
  exact ⟨h, p2g_untouched_cells_zero _ 127 h⟩

/-! ## Claim C3 -/

/-- C3: the host dispatches `div_ceil(9, 64) = 1` workgroup of 64
threads for the 9-element particle buffers, so invocation indices 9..63
exist; invocation 9 reads `xs[9]` out of bounds and aborts (there is no
index guard in the kernel), and a stored material tag byte 3 panics in
`to_material` even at an in-range index.  Aborts are modelled as `none`. -/
theorem p2g_dispatch_abort :
    N_PARTICLES = 9 ∧
    9 < (num_workgroups_1d N_PARTICLES).1 * WORKGROUP_SIZE ∧
    p2g stHost 9 = none ∧
    to_material 3 = none ∧
    p2g stBadTag 0 = none :=
  ⟨rfl, by decide, rfl, rfl, rfl⟩

/-! ## Claim C10 -/

theorem list_get_set_ne {α : Type} (l : List α) (p q : ℕ) (a : α) (h : q ≠ p) :
    (l.set p a).get? q = l.get? q := by
  induction l generalizing p q with
  | nil => rfl
  | cons b l ih =>
    cases p with
    | zero =>
      cases q with
      | zero => exact absurd rfl h
      | succ q => rfl
    | succ p =>
      cases q with
      | zero => rfl
      | succ q => exact ih p q fun he => h (congrArg Nat.succ he)

theorem list_map_C_set (l : List ParticleMatrices) (p : ℕ) (pm : ParticleMatrices)
    (F : Mat2 ℝ) (h : l.get? p = some pm) :
    (l.set p ⟨pm.C, F⟩).map ParticleMatrices.C = l.map ParticleMatrices.C := by
  induction l generalizing p with
  | nil => rfl
  | cons b l ih =>
    cases p with
    | zero =>
      simp only [List.get?] at h
      cases h
      rfl
    | succ p =>
      simp only [List.get?] at h
      simp only [List.set, List.map, List.map_cons]
      rw [ih p h]

/-- C10: whenever a `p2g` invocation for particle `p` completes, the
position and velocity buffers and the material tags are untouched, the
`C` matrix of every particle is untouched, and every particle other
than `p` keeps its `F` and its plastic `J`: the kernel writes only
particle `p`'s deformation gradient and plastic `J` among the
particle-store fields (plus the shared grid). -/
theorem p2g_frame_effect (st : PState) (p : ℕ) (st2 : PState)
    (h : p2g st p = some st2) :
    st2.xs = st.xs ∧ st2.vs = st.vs ∧
    st2.particle_material = st.particle_material ∧
    st2.particle_matrices.map ParticleMatrices.C =
      st.particle_matrices.map ParticleMatrices.C ∧
    (∀ q, q ≠ p → st2.particle_matrices.get? q = st.particle_matrices.get? q ∧
      st2.particle_deformation.get? q = st.particle_deformation.get? q) := by
  unfold p2g at h
  cases hx : st.xs.get? p with
  | none => rw [hx] at h; simp [Option.bind] at h
  | some xp =>
  rw [hx] at h
  cases hv : st.vs.get? p with
  | none => rw [hv] at h; simp [Option.bind] at h
  | some vp =>
  rw [hv] at h
  cases hm : st.particle_matrices.get? p with
  | none => rw [hm] at h; simp [Option.bind] at h
  | some pm =>
  rw [hm] at h
  cases hdf : st.particle_deformation.get? p with
  | none => rw [hdf] at h; simp [Option.bind] at h
  | some pd =>
  rw [hdf] at h
  cases hmb : st.particle_material.get? p with
  | none => rw [hmb] at h; simp [Option.bind] at h
  | some mb =>
  rw [hmb] at h
  simp only [Option.bind_eq_bind', Option.some_bind'] at h
  cases hmat : to_material mb with
  | none => rw [hmat] at h; simp [Option.bind_eq_bind', Option.none_bind'] at h
  | some material =>
  rw [hmat] at h
  simp only [Option.bind_eq_bind', Option.some_bind', Option.some.injEq] at h
  subst h
  refine ⟨rfl, rfl, rfl, list_map_C_set _ p pm _ hm, fun q hq => ⟨?_, ?_⟩⟩
  · exact list_get_set_ne _ p q _ hq
  · exact list_get_set_ne _ p q _ hq

/-- Witness for C10: the single-particle store runs to completion and
keeps its position, velocity and material buffers unchanged. -/
theorem p2g_frame_effect_witness :
    (p2g stOne 0).isSome = true ∧
    ((p2g stOne 0).getD stOne).xs = stOne.xs ∧
    ((p2g stOne 0).getD stOne).vs = stOne.vs ∧
    ((p2g stOne 0).getD stOne).particle_material = stOne.particle_material := by
  have h : p2g stOne 0 = some ((p2g stOne 0).getD stOne) := rfl
  have H := p2g_frame_effect stOne 0 _ h
  exact ⟨by rw [h]; rfl, H.1, H.2.1, H.2.2.1⟩

/-! ## SVD lemmas -/

theorem hypot2_aux (x y : ℝ) (h : 0 < |x|) :
    |x| * Real.sqrt (1 + (|y| / |x|) * (|y| / |x|)) = Real.sqrt (x * x + y * y) := by
  have hx : x ≠ 0 := abs_pos.mp h
  have h1 : 1 + (|y| / |x|) * (|y| / |x|) = (x * x + y * y) / (|x| * |x|) := by
    rw [div_mul_div_comm, abs_mul_abs_self y, abs_mul_abs_self x, add_div,
      div_self (mul_ne_zero hx hx)]
  rw [h1, Real.sqrt_div (add_nonneg (mul_self_nonneg x) (mul_self_nonneg y)),
    Real.sqrt_mul_self (abs_nonneg x), mul_div_cancel₀ _ h.ne']

theorem hypot2_eq (x y : ℝ) : hypot2 x y = Real.sqrt (x * x + y * y) := by
  unfold hypot2
  dsimp only
  by_cases hc : |x| ≥ |y|
  · rw [if_pos hc]
    dsimp only
    by_cases hm : |x| = 0
    · rw [if_pos hm]
      have hx : x = 0 := abs_eq_zero.mp hm
      have hy : y = 0 := abs_eq_zero.mp (le_antisymm (hm ▸ hc) (abs_nonneg y))
      rw [hx, hy]
      norm_num
    · rw [if_neg hm]
      exact hypot2_aux x y (lt_of_le_of_ne (abs_nonneg x) (Ne.symm hm))
  · rw [if_neg hc]
    dsimp only
    push_neg at hc
    have hpos : 0 < |y| := lt_of_le_of_lt (abs_nonneg x) hc
    rw [if_neg hpos.ne']
    rw [hypot2_aux y x hpos]
    ring_nf

theorem alpha_nonneg (a : Mat2 ℝ) : 0 ≤ alpha a :=
  add_nonneg (mul_self_nonneg _) (mul_self_nonneg _)

theorem gamma_nonneg (a : Mat2 ℝ) : 0 ≤ gamma a :=
  add_nonneg (mul_self_nonneg _) (mul_self_nonneg _)

theorem detSq_identity (a : Mat2 ℝ) :
    alpha a * gamma a - beta a * beta a = detA a * detA a := by
  unfold alpha beta gamma detA
  ring

theorem rS_nonneg (a : Mat2 ℝ) : 0 ≤ rS a := by
  rw [rS, hypot2_eq]
  exact Real.sqrt_nonneg _

theorem rS_sq (a : Mat2 ℝ) : rS a * rS a =
    (alpha a - gamma a) * (alpha a - gamma a) + (2 * beta a) * (2 * beta a) := by
  rw [rS, hypot2_eq]
  exact Real.mul_self_sqrt (add_nonneg (mul_self_nonneg _) (mul_self_nonneg _))

theorem rS_le (a : Mat2 ℝ) : rS a ≤ alpha a + gamma a := by
  have hag : 0 ≤ alpha a + gamma a := add_nonneg (alpha_nonneg a) (gamma_nonneg a)
  have h1 : (alpha a - gamma a) * (alpha a - gamma a) + (2 * beta a) * (2 * beta a) ≤
      (alpha a + gamma a) * (alpha a + gamma a) := by
    nlinarith [detSq_identity a, mul_self_nonneg (detA a)]
  calc rS a = Real.sqrt ((alpha a - gamma a) * (alpha a - gamma a) +
        (2 * beta a) * (2 * beta a)) := by rw [rS, hypot2_eq]
    _ ≤ Real.sqrt ((alpha a + gamma a) * (alpha a + gamma a)) := Real.sqrt_le_sqrt h1
    _ = alpha a + gamma a := Real.sqrt_mul_self hag

theorem lambda1_eq (a : Mat2 ℝ) :
    lambda1 a = (1 / 2) * ((alpha a + gamma a) + rS a) := by
  unfold lambda1
  rw [max_eq_left]
  have h1 := alpha_nonneg a
  have h2 := gamma_nonneg a
  have h3 := rS_nonneg a
  linarith

theorem lambda1_nonneg (a : Mat2 ℝ) : 0 ≤ lambda1 a := by
  rw [lambda1_eq]
  have h1 := alpha_nonneg a
  have h2 := gamma_nonneg a
  have h3 := rS_nonneg a
  linarith

theorem lambda1_mul (a : Mat2 ℝ) :
    lambda1 a * ((1 / 2) * ((alpha a + gamma a) - rS a)) = detA a * detA a := by
  rw [lambda1_eq]
  have hr2 := rS_sq a
  have hid := detSq_identity a
  nlinarith [hr2, hid]

theorem lambda2_le_lambda1 (a : Mat2 ℝ) : lambda2 a ≤ lambda1 a := by
  have h1 := lambda1_nonneg a
  have hsafe_pos : 0 < lambda1_safe a :=
    lt_of_lt_of_le (by norm_num [f32MinPos]) (le_max_right _ _)
  have hsafe_ge : lambda1 a ≤ lambda1_safe a := le_max_left _ _
  have htle : (1 / 2) * ((alpha a + gamma a) - rS a) ≤ lambda1 a := by
    rw [lambda1_eq]
    have := rS_nonneg a
    linarith
  have hdiv : detA a * detA a / lambda1_safe a ≤ lambda1 a := by
    rw [div_le_iff₀ hsafe_pos]
    calc detA a * detA a
        = lambda1 a * ((1 / 2) * ((alpha a + gamma a) - rS a)) := (lambda1_mul a).symm
      _ ≤ lambda1 a * lambda1_safe a :=
          mul_le_mul_of_nonneg_left (le_trans htle hsafe_ge) h1
  unfold lambda2
  exact max_le hdiv h1

theorem lambda2_nonneg (a : Mat2 ℝ) : 0 ≤ lambda2 a := le_max_right _ _

theorem svd_s_eq (a : Mat2 ℝ) : (svd2x2_exact a).s = ⟨s1v a, s2v a⟩ := by
  unfold svd2x2_exact
  split <;> rfl

theorem Vec2.dot_smul_smul (c d : ℝ) (v w : Vec2 ℝ) :
    Vec2.dot (c • v) (d • w) = c * d * Vec2.dot v w := by
  unfold Vec2.dot
  dsimp only [Vec2.smul_def]
  ring

theorem Vec2.dot_neg_right (v w : Vec2 ℝ) : Vec2.dot v (-w) = -(Vec2.dot v w) := by
  unfold Vec2.dot
  dsimp only [Vec2.neg_def]
  ring

/-! ## Claim C6 -/

theorem svd_s2_nonneg (a : Mat2 ℝ) : 0 ≤ (svd2x2_exact a).s.y := by
  rw [svd_s_eq]
  dsimp only
  unfold s2v
  split
  · exact le_refl 0
  · exact Real.sqrt_nonneg _

theorem svd_s2_le_s1 (a : Mat2 ℝ) : (svd2x2_exact a).s.y ≤ (svd2x2_exact a).s.x := by
  rw [svd_s_eq]
  dsimp only
  unfold s2v s1v s2pre
  split
  · exact Real.sqrt_nonneg _
  · exact Real.sqrt_le_sqrt (lambda2_le_lambda1 a)

/-- C6: for every real 2x2 matrix, including singular and rank-deficient
ones, the singular values returned by `svd2x2_exact` satisfy
`s1 ≥ s2 ≥ 0`. -/
theorem svd_singular_values_ordered (a : Mat2 ℝ) :
    0 ≤ (svd2x2_exact a).s.y ∧ (svd2x2_exact a).s.y ≤ (svd2x2_exact a).s.x :=
  ⟨svd_s2_nonneg a, svd_s2_le_s1 a⟩

/-! ## Claim C7 -/

/-- C7: on every input with determinant exactly zero, the rank-1 guard
of `svd2x2_exact` fires: `s2` is locked to exactly 0 and `u1` is built
as a perpendicular of `u0` (no division by a near-zero `s2`), so the
two returned `U` columns are exactly orthogonal. -/
theorem svd_rank1_s2_zero_u_orthogonal (a : Mat2 ℝ) (hd : detA a = 0) :
    (svd2x2_exact a).s.y = 0 ∧
    Vec2.dot (svd2x2_exact a).u.x_axis (svd2x2_exact a).u.y_axis = 0 := by
  have hguard : rank1Guard a := Or.inr (Or.inl hd)
  have hdot0 : uDot a = 0 := by
    unfold uDot u1raw
    rw [if_pos hguard]
    unfold Vec2.dot
    dsimp only
    ring
  have hperp : Vec2.dot (u0raw a) (u1raw a - uDot a • u0raw a) = 0 := by
    have hu1 : u1raw a = ⟨-(u0raw a).y, (u0raw a).x⟩ := by
      unfold u1raw
      rw [if_pos hguard]
    rw [hu1, hdot0]
    unfold Vec2.dot
    dsimp only [Vec2.sub_def, Vec2.smul_def]
    ring
  have hmain : Vec2.dot (u0n a) (u1gs a) = 0 := by
    unfold u0n u1gs Vec2.normalize
    rw [Vec2.dot_smul_smul, hperp, mul_zero]
  constructor
  · rw [svd_s_eq]
    dsimp only
    unfold s2v
    rw [if_pos hguard]
  · unfold svd2x2_exact
    split
    · dsimp only [Mat2.from_cols]
      rw [show (uPre a).x_axis = u0n a from rfl, show (uPre a).y_axis = u1gs a from rfl,
        Vec2.dot_neg_right, hmain, neg_zero]
    · exact hmain

/-- Witness for C7: the spec's rank-1 matrix with columns `(-4, 1)` and
`(-1, 0.25)` has determinant zero, whence `s2 = 0` and orthogonal `U`
columns. -/
theorem svd_rank1_witness :
    detA aRank1 = 0 ∧ (svd2x2_exact aRank1).s.y = 0 ∧
    Vec2.dot (svd2x2_exact aRank1).u.x_axis (svd2x2_exact aRank1).u.y_axis = 0 := by
  have hd : detA aRank1 = 0 := by
    unfold detA aRank1 Mat2.from_cols
    norm_num
  exact ⟨hd, (svd_rank1_s2_zero_u_orthogonal aRank1 hd).1,
    (svd_rank1_s2_zero_u_orthogonal aRank1 hd).2⟩

/-! ## Concrete SVD evaluations -/

theorem updatedF_cCompress :
    updatedF cCompress Mat2.identity = Mat2.from_cols ⟨9 / 10, 0⟩ ⟨0, 1⟩ := by
  unfold updatedF cCompress Mat2.identity Mat2.from_cols DT QUALITY
  simp only [Mat2.mul_def, Mat2.add_cols, Mat2.smul_cols, Vec2.add_def, Vec2.smul_def,
    Mat2.mul_vec2]
  norm_num

theorem svd_eval_diag09 :
    svd2x2_exact (Mat2.from_cols ⟨9 / 10, 0⟩ ⟨0, 1⟩) =
      ⟨Mat2.from_cols ⟨0, 1⟩ ⟨-1, 0⟩, ⟨1, 9 / 10⟩, Mat2.from_cols ⟨0, 1⟩ ⟨-1, 0⟩⟩ := by
  have ha : alpha (Mat2.from_cols ⟨9 / 10, 0⟩ ⟨0, 1⟩) = 81 / 100 := by
    unfold alpha Mat2.from_cols; norm_num
  have hb : beta (Mat2.from_cols ⟨9 / 10, 0⟩ ⟨0, 1⟩) = 0 := by
    unfold beta Mat2.from_cols; norm_num
  have hg : gamma (Mat2.from_cols ⟨9 / 10, 0⟩ ⟨0, 1⟩) = 1 := by
    unfold gamma Mat2.from_cols; norm_num
  have hdet : detA (Mat2.from_cols ⟨9 / 10, 0⟩ ⟨0, 1⟩) = 9 / 10 := by
    unfold detA Mat2.from_cols; norm_num
  have hr : rS (Mat2.from_cols ⟨9 / 10, 0⟩ ⟨0, 1⟩) = 19 / 100 := by
    rw [rS, hypot2_eq, ha, hb, hg,
      show ((81 / 100 - 1 : ℝ) * (81 / 100 - 1) + (2 * 0) * (2 * 0)) = (19 / 100) ^ 2 by
        norm_num,
      Real.sqrt_sq (by norm_num)]
  have hl1 : lambda1 (Mat2.from_cols ⟨9 / 10, 0⟩ ⟨0, 1⟩) = 1 := by
    rw [lambda1_eq, ha, hg, hr]; norm_num
  have hl1s : lambda1_safe (Mat2.from_cols ⟨9 / 10, 0⟩ ⟨0, 1⟩) = 1 := by
    unfold lambda1_safe f32MinPos
    rw [hl1, max_eq_left (by norm_num)]
  have hl2 : lambda2 (Mat2.from_cols ⟨9 / 10, 0⟩ ⟨0, 1⟩) = 81 / 100 := by
    unfold lambda2
    rw [hdet, hl1s,
      show ((9 / 10 : ℝ) * (9 / 10) / 1) = 81 / 100 by norm_num,
      max_eq_left (by norm_num)]
  have hv0c : v0cand (Mat2.from_cols ⟨9 / 10, 0⟩ ⟨0, 1⟩) = ⟨0, 0⟩ := by
    unfold v0cand
    rw [hb, hl1, ha, hg, if_neg (by norm_num)]
    norm_num
  have hv0 : v0sel (Mat2.from_cols ⟨9 / 10, 0⟩ ⟨0, 1⟩) = ⟨0, 1⟩ := by
    unfold v0sel
    rw [hv0c, if_pos (by norm_num [Vec2.length_squared]), ha, hg, if_neg (by norm_num)]
  have hvpre : vPre (Mat2.from_cols ⟨9 / 10, 0⟩ ⟨0, 1⟩) =
      Mat2.from_cols ⟨0, 1⟩ ⟨-1, 0⟩ := by
    unfold vPre
    rw [hv0]
  have hd11 : d11 (Mat2.from_cols ⟨9 / 10, 0⟩ ⟨0, 1⟩) = 1 := by
    unfold d11
    rw [hvpre, ha, hb, hg]
    norm_num [Mat2.from_cols]
  have hd22 : d22 (Mat2.from_cols ⟨9 / 10, 0⟩ ⟨0, 1⟩) = 81 / 100 := by
    unfold d22
    rw [hvpre, ha, hb, hg]
    norm_num [Mat2.from_cols]
  have hvmat : vMat (Mat2.from_cols ⟨9 / 10, 0⟩ ⟨0, 1⟩) =
      Mat2.from_cols ⟨0, 1⟩ ⟨-1, 0⟩ := by
    unfold vMat
    rw [hd11, hd22, if_neg (by norm_num), hvpre]
  have hs1 : s1v (Mat2.from_cols ⟨9 / 10, 0⟩ ⟨0, 1⟩) = 1 := by
    unfold s1v
    rw [hl1, Real.sqrt_one]
  have hs2p : s2pre (Mat2.from_cols ⟨9 / 10, 0⟩ ⟨0, 1⟩) = 9 / 10 := by
    unfold s2pre
    rw [hl2, show (81 / 100 : ℝ) = (9 / 10) ^ 2 by norm_num, Real.sqrt_sq (by norm_num)]
  have hbmat : bMat (Mat2.from_cols ⟨9 / 10, 0⟩ ⟨0, 1⟩) =
      Mat2.from_cols ⟨0, 1⟩ ⟨-(9 / 10), 0⟩ := by
    unfold bMat
    rw [hvmat]
    simp only [Mat2.mul_def, Mat2.mul_vec2, Mat2.from_cols]
    norm_num
  have hu0 : u0raw (Mat2.from_cols ⟨9 / 10, 0⟩ ⟨0, 1⟩) = ⟨0, 1⟩ := by
    unfold u0raw
    rw [hs1, hbmat, if_pos (by norm_num)]
    norm_num [Mat2.from_cols, Vec2.div_def]
  have hguard : ¬ rank1Guard (Mat2.from_cols ⟨9 / 10, 0⟩ ⟨0, 1⟩) := by
    unfold rank1Guard s2tiny
    rw [hs2p, hdet]
    norm_num [f32MinPos]
  have hu1raw : u1raw (Mat2.from_cols ⟨9 / 10, 0⟩ ⟨0, 1⟩) = ⟨-1, 0⟩ := by
    unfold u1raw
    rw [if_neg hguard, hbmat, hs2p]
    norm_num [Mat2.from_cols, Vec2.div_def]
  have hdot : uDot (Mat2.from_cols ⟨9 / 10, 0⟩ ⟨0, 1⟩) = 0 := by
    unfold uDot
    rw [hu0, hu1raw]
    norm_num [Vec2.dot]
  have hu1gs : u1gs (Mat2.from_cols ⟨9 / 10, 0⟩ ⟨0, 1⟩) = ⟨-1, 0⟩ := by
    unfold u1gs
    rw [hu1raw, hdot, hu0,
      show ((⟨-1, 0⟩ : Vec2 ℝ) - (0 : ℝ) • (⟨0, 1⟩ : Vec2 ℝ)) = ⟨-1, 0⟩ by
        norm_num [Vec2.sub_def, Vec2.smul_def]]
    unfold Vec2.normalize Vec2.length Vec2.dot
    norm_num [Real.sqrt_one, Vec2.smul_def]
  have hu0n : u0n (Mat2.from_cols ⟨9 / 10, 0⟩ ⟨0, 1⟩) = ⟨0, 1⟩ := by
    unfold u0n Vec2.normalize Vec2.length Vec2.dot
    rw [hu0]
    norm_num [Real.sqrt_one, Vec2.smul_def]
  have hupre : uPre (Mat2.from_cols ⟨9 / 10, 0⟩ ⟨0, 1⟩) =
      Mat2.from_cols ⟨0, 1⟩ ⟨-1, 0⟩ := by
    unfold uPre
    rw [hu0n, hu1gs]
  have hs2 : s2v (Mat2.from_cols ⟨9 / 10, 0⟩ ⟨0, 1⟩) = 9 / 10 := by
    unfold s2v
    rw [if_neg hguard, hs2p]
  unfold svd2x2_exact
  rw [if_neg (by rw [hupre]; norm_num [Mat2.determinant, Mat2.from_cols]),
    hupre, hvmat, hs1, hs2]

theorem svd_eval_zero :
    svd2x2_exact (Mat2.from_cols ⟨0, 0⟩ ⟨0, 0⟩) =
      ⟨Mat2.from_cols ⟨1, 0⟩ ⟨0, 1⟩, ⟨0, 0⟩, Mat2.from_cols ⟨1, 0⟩ ⟨0, 1⟩⟩ := by
  have ha : alpha (Mat2.from_cols ⟨0, 0⟩ ⟨0, 0⟩) = 0 := by
    unfold alpha Mat2.from_cols; norm_num
  have hb : beta (Mat2.from_cols ⟨0, 0⟩ ⟨0, 0⟩) = 0 := by
    unfold beta Mat2.from_cols; norm_num
  have hg : gamma (Mat2.from_cols ⟨0, 0⟩ ⟨0, 0⟩) = 0 := by
    unfold gamma Mat2.from_cols; norm_num
  have hdet : detA (Mat2.from_cols ⟨0, 0⟩ ⟨0, 0⟩) = 0 := by
    unfold detA Mat2.from_cols; norm_num
  have hr : rS (Mat2.from_cols ⟨0, 0⟩ ⟨0, 0⟩) = 0 := by
    rw [rS, hypot2_eq, ha, hb, hg]
    norm_num
  have hl1 : lambda1 (Mat2.from_cols ⟨0, 0⟩ ⟨0, 0⟩) = 0 := by
    rw [lambda1_eq, ha, hg, hr]
    norm_num
  have hl1s : lambda1_safe (Mat2.from_cols ⟨0, 0⟩ ⟨0, 0⟩) = f32MinPos := by
    unfold lambda1_safe
    rw [hl1, max_eq_right (by norm_num [f32MinPos])]
  have hl2 : lambda2 (Mat2.from_cols ⟨0, 0⟩ ⟨0, 0⟩) = 0 := by
    unfold lambda2
    rw [hdet, hl1s]
    norm_num
  have hv0c : v0cand (Mat2.from_cols ⟨0, 0⟩ ⟨0, 0⟩) = ⟨0, 0⟩ := by
    unfold v0cand
    rw [hb, hl1, ha, hg, if_neg (by norm_num)]
    norm_num
  have hv0 : v0sel (Mat2.from_cols ⟨0, 0⟩ ⟨0, 0⟩) = ⟨1, 0⟩ := by
    unfold v0sel
    rw [hv0c, if_pos (by norm_num [Vec2.length_squared]), ha, hg, if_pos (by norm_num)]
  have hvpre : vPre (Mat2.from_cols ⟨0, 0⟩ ⟨0, 0⟩) = Mat2.from_cols ⟨1, 0⟩ ⟨0, 1⟩ := by
    unfold vPre
    rw [hv0]
    norm_num [Mat2.from_cols]
  have hd11 : d11 (Mat2.from_cols ⟨0, 0⟩ ⟨0, 0⟩) = 0 := by
    unfold d11
    rw [hvpre, ha, hb, hg]
    norm_num [Mat2.from_cols]
  have hd22 : d22 (Mat2.from_cols ⟨0, 0⟩ ⟨0, 0⟩) = 0 := by
    unfold d22
    rw [hvpre, ha, hb, hg]
    norm_num [Mat2.from_cols]
  have hvmat : vMat (Mat2.from_cols ⟨0, 0⟩ ⟨0, 0⟩) = Mat2.from_cols ⟨1, 0⟩ ⟨0, 1⟩ := by
    unfold vMat
    rw [hd11, hd22, if_neg (by norm_num), hvpre]
  have hs1 : s1v (Mat2.from_cols ⟨0, 0⟩ ⟨0, 0⟩) = 0 := by
    unfold s1v
    rw [hl1, Real.sqrt_zero]
  have hs2p : s2pre (Mat2.from_cols ⟨0, 0⟩ ⟨0, 0⟩) = 0 := by
    unfold s2pre
    rw [hl2, Real.sqrt_zero]
  have hguard : rank1Guard (Mat2.from_cols ⟨0, 0⟩ ⟨0, 0⟩) := Or.inl hs2p
  have hu0 : u0raw (Mat2.from_cols ⟨0, 0⟩ ⟨0, 0⟩) = ⟨1, 0⟩ := by
    unfold u0raw
    rw [hs1, if_neg (by norm_num)]
  have hu1raw : u1raw (Mat2.from_cols ⟨0, 0⟩ ⟨0, 0⟩) = ⟨0, 1⟩ := by
    unfold u1raw
    rw [if_pos hguard, hu0]
    norm_num
  have hdot : uDot (Mat2.from_cols ⟨0, 0⟩ ⟨0, 0⟩) = 0 := by
    unfold uDot
    rw [hu0, hu1raw]
    norm_num [Vec2.dot]
  have hu1gs : u1gs (Mat2.from_cols ⟨0, 0⟩ ⟨0, 0⟩) = ⟨0, 1⟩ := by
    unfold u1gs
    rw [hu1raw, hdot, hu0,
      show ((⟨0, 1⟩ : Vec2 ℝ) - (0 : ℝ) • (⟨1, 0⟩ : Vec2 ℝ)) = ⟨0, 1⟩ by
        norm_num [Vec2.sub_def, Vec2.smul_def]]
    unfold Vec2.normalize Vec2.length Vec2.dot
    norm_num [Real.sqrt_one, Vec2.smul_def]
  have hu0n : u0n (Mat2.from_cols ⟨0, 0⟩ ⟨0, 0⟩) = ⟨1, 0⟩ := by
    unfold u0n Vec2.normalize Vec2.length Vec2.dot
    rw [hu0]
    norm_num [Real.sqrt_one, Vec2.smul_def]
  have hupre : uPre (Mat2.from_cols ⟨0, 0⟩ ⟨0, 0⟩) = Mat2.from_cols ⟨1, 0⟩ ⟨0, 1⟩ := by
    unfold uPre
    rw [hu0n, hu1gs]
  have hs2 : s2v (Mat2.from_cols ⟨0, 0⟩ ⟨0, 0⟩) = 0 := by
    unfold s2v
    rw [if_pos hguard]
  unfold svd2x2_exact
  rw [if_neg (by rw [hupre]; norm_num [Mat2.determinant, Mat2.from_cols]),
    hupre, hvmat, hs1, hs2]

/-! ## The plastic-J update -/

theorem constitutive_Jp (material : Material) (C F0 : Mat2 ℝ) (Jp0 : ℝ) :
    (constitutive material C F0 Jp0).2.1 =
      (Jp0 * ((svd2x2_exact (updatedF C F0)).s.x /
        snowClamp material ((svd2x2_exact (updatedF C F0)).s.x))) *
      ((svd2x2_exact (updatedF C F0)).s.y /
        snowClamp material ((svd2x2_exact (updatedF C F0)).s.y)) := rfl

/-! ## Claim C5 -/

/-- C5 counterexample: a Snow particle with `plastic_J = 1 > 0` whose
affine velocity `C = diag(-10000, -10000)` drives the updated
deformation gradient to the zero matrix; the SVD yields `s1 = s2 = 0`,
the plasticity loop multiplies `plastic_J` by `0 / 0.975` twice, and the
written-back `plastic_J` is exactly 0, not strictly positive. -/
theorem plastic_J_degenerate_cex :
    (0 : ℝ) < 1 ∧
    updatedF cDegenerate Mat2.identity = Mat2.from_cols ⟨0, 0⟩ ⟨0, 0⟩ ∧
    (svd2x2_exact (updatedF cDegenerate Mat2.identity)).s.y = 0 ∧
    (constitutive Material.Snow cDegenerate Mat2.identity 1).2.1 = 0 ∧
    ¬ (0 < (constitutive Material.Snow cDegenerate Mat2.identity 1).2.1) := by
  have hF : updatedF cDegenerate Mat2.identity = Mat2.from_cols ⟨0, 0⟩ ⟨0, 0⟩ := by
    unfold updatedF cDegenerate Mat2.identity Mat2.from_cols DT QUALITY
    simp only [Mat2.mul_def, Mat2.add_cols, Mat2.smul_cols, Vec2.add_def, Vec2.smul_def,
      Mat2.mul_vec2]
    norm_num
  have hzero : (constitutive Material.Snow cDegenerate Mat2.identity 1).2.1 = 0 := by
    rw [constitutive_Jp, hF, svd_eval_zero]
    unfold snowClamp clampf
    norm_num
  refine ⟨by norm_num, hF, ?_, hzero, by rw [hzero]; norm_num⟩
  rw [hF, svd_eval_zero]

/-- C5 amended: the per-particle step preserves `plastic_J > 0` for
every material provided the SVD of the updated deformation gradient has
a strictly positive smallest singular value; with `s2 = 0` (degenerate
update) the written value is 0 (Snow clamps, then multiplies by
`0 / 0.975`) rather than staying positive. -/
theorem plastic_J_positive (material : Material) (C F0 : Mat2 ℝ) (Jp0 : ℝ)
    (hJ : 0 < Jp0) (hs2 : 0 < (svd2x2_exact (updatedF C F0)).s.y) :
    0 < (constitutive material C F0 Jp0).2.1 := by
  have hs1 : 0 < (svd2x2_exact (updatedF C F0)).s.x :=
    lt_of_lt_of_le hs2 (svd_s2_le_s1 (updatedF C F0))
  rw [constitutive_Jp]
  have hfac : ∀ s : ℝ, 0 < s → 0 < s / snowClamp material s := by
    intro s hs
    cases material with
    | Snow =>
      unfold snowClamp clampf
      rw [if_pos rfl]
      exact div_pos hs (lt_of_lt_of_le (by norm_num) (le_max_right _ _))
    | Fluid =>
      unfold snowClamp
      rw [if_neg (by intro hcon; exact Material.noConfusion hcon), div_self hs.ne']
      norm_num
    | Jelly =>
      unfold snowClamp
      rw [if_neg (by intro hcon; exact Material.noConfusion hcon), div_self hs.ne']
      norm_num
  exact mul_pos (mul_pos hJ (hfac _ hs1)) (hfac _ hs2)

/-- Witness for C5 (amended): the compressive Snow particle with
`C = diag(-1000, 0)` has `s2 = 0.9 > 0` after the update, and the
written `plastic_J` is strictly positive. -/
theorem plastic_J_positive_witness :
    (0 : ℝ) < 1 ∧ 0 < (svd2x2_exact (updatedF cCompress Mat2.identity)).s.y ∧
    0 < (constitutive Material.Snow cCompress Mat2.identity 1).2.1 := by
  have h2 : 0 < (svd2x2_exact (updatedF cCompress Mat2.identity)).s.y := by
    rw [updatedF_cCompress, svd_eval_diag09]
    norm_num
  exact ⟨by norm_num, h2,
    plastic_J_positive Material.Snow cCompress Mat2.identity 1 (by norm_num) h2⟩

/-! ## Claim C4 -/

/-- C4 counterexample: the Snow particle with `C = diag(-1000, 0)`,
`F = I`, `plastic_J = 1` has updated singular values `(1, 0.9)`; the
smaller one is below `0.975` and is clamped to exactly `0.975`, the
plastic multiplier is `0.9 / 0.975 = 12/13 < 1`, and the written-back
`plastic_J` is `12/13 < 1`: the step decreases `plastic_J`, refuting
the claim that it increases. -/
theorem snow_clamp_cex :
    (svd2x2_exact (updatedF cCompress Mat2.identity)).s.y < 39 / 40 ∧
    snowClamp Material.Snow ((svd2x2_exact (updatedF cCompress Mat2.identity)).s.y) =
      39 / 40 ∧
    (constitutive Material.Snow cCompress Mat2.identity 1).2.1 = 12 / 13 ∧
    ¬ (1 < (constitutive Material.Snow cCompress Mat2.identity 1).2.1) := by
  have hsy : (svd2x2_exact (updatedF cCompress Mat2.identity)).s.y = 9 / 10 := by
    rw [updatedF_cCompress, svd_eval_diag09]
  have hsx : (svd2x2_exact (updatedF cCompress Mat2.identity)).s.x = 1 := by
    rw [updatedF_cCompress, svd_eval_diag09]
  have hclampy : snowClamp Material.Snow
      ((svd2x2_exact (updatedF cCompress Mat2.identity)).s.y) = 39 / 40 := by
    rw [hsy]
    unfold snowClamp clampf
    rw [if_pos rfl, min_eq_left (by norm_num), max_eq_right (by norm_num)]
    norm_num
  have hval : (constitutive Material.Snow cCompress Mat2.identity 1).2.1 = 12 / 13 := by
    rw [constitutive_Jp, hsx, hsy]
    unfold snowClamp clampf
    rw [if_pos rfl, if_pos rfl, min_eq_left (by norm_num : (1 : ℝ) ≤ 1 + 45 / 10000),
      max_eq_left (by norm_num : (1 - 25 / 1000 : ℝ) ≤ 1),
      min_eq_left (by norm_num : (9 / 10 : ℝ) ≤ 1 + 45 / 10000),
      max_eq_right (by norm_num : (9 / 10 : ℝ) ≤ 1 - 25 / 1000)]
    norm_num
  exact ⟨by rw [hsy]; norm_num, hclampy, hval, by rw [hval]; norm_num⟩

/-- C4 amended: for a Snow particle whose updated deformation gradient
has its smaller singular value below 0.975 (and the larger one within
the clamp interval, at most 1.0045) and `plastic_J > 0`, that singular
value is clamped to exactly `0.975 = 39/40`, `plastic_J` is multiplied
by (old value / clamped value) per singular value, and the written
`plastic_J` strictly decreases (rather than increases). -/
theorem snow_clamp_decreases (C F0 : Mat2 ℝ) (Jp0 : ℝ) (hJ : 0 < Jp0)
    (hs2 : (svd2x2_exact (updatedF C F0)).s.y < 39 / 40)
    (hs1 : (svd2x2_exact (updatedF C F0)).s.x ≤ 1 + 45 / 10000) :
    snowClamp Material.Snow ((svd2x2_exact (updatedF C F0)).s.y) = 39 / 40 ∧
    (constitutive Material.Snow C F0 Jp0).2.1 =
      (Jp0 * ((svd2x2_exact (updatedF C F0)).s.x /
        snowClamp Material.Snow ((svd2x2_exact (updatedF C F0)).s.x))) *
      ((svd2x2_exact (updatedF C F0)).s.y / (39 / 40)) ∧
    (constitutive Material.Snow C F0 Jp0).2.1 < Jp0 := by
  have hsy0 : 0 ≤ (svd2x2_exact (updatedF C F0)).s.y := svd_s2_nonneg _
  have hsx0 : 0 ≤ (svd2x2_exact (updatedF C F0)).s.x :=
    le_trans hsy0 (svd_s2_le_s1 _)
  have hclampy : snowClamp Material.Snow ((svd2x2_exact (updatedF C F0)).s.y) =
      39 / 40 := by
    unfold snowClamp clampf
    rw [if_pos rfl, min_eq_left (le_trans hs2.le (by norm_num)),
      max_eq_right (by linarith)]
    norm_num
  have hclx_le : (svd2x2_exact (updatedF C F0)).s.x ≤
      snowClamp Material.Snow ((svd2x2_exact (updatedF C F0)).s.x) := by
    unfold snowClamp clampf
    rw [if_pos rfl, min_eq_left hs1]
    exact le_max_left _ _
  have hclx_pos : 0 < snowClamp Material.Snow ((svd2x2_exact (updatedF C F0)).s.x) := by
    unfold snowClamp clampf
    rw [if_pos rfl, min_eq_left hs1]
    exact lt_of_lt_of_le (by norm_num) (le_max_right _ _)
  have hf0le : (svd2x2_exact (updatedF C F0)).s.x /
      snowClamp Material.Snow ((svd2x2_exact (updatedF C F0)).s.x) ≤ 1 :=
    (div_le_one hclx_pos).mpr hclx_le
  have hf0nn : 0 ≤ (svd2x2_exact (updatedF C F0)).s.x /
      snowClamp Material.Snow ((svd2x2_exact (updatedF C F0)).s.x) :=
    div_nonneg hsx0 hclx_pos.le
  have hf1lt : (svd2x2_exact (updatedF C F0)).s.y / (39 / 40) < 1 :=
    (div_lt_one (by norm_num)).mpr hs2
  have hf1nn : 0 ≤ (svd2x2_exact (updatedF C F0)).s.y / (39 / 40) :=
    div_nonneg hsy0 (by norm_num)
  refine ⟨hclampy, by rw [constitutive_Jp, hclampy], ?_⟩
  rw [constitutive_Jp, hclampy]
  have h1 : ((svd2x2_exact (updatedF C F0)).s.x /
      snowClamp Material.Snow ((svd2x2_exact (updatedF C F0)).s.x)) *
      ((svd2x2_exact (updatedF C F0)).s.y / (39 / 40)) < 1 := by
    nlinarith [hf0le, hf0nn, hf1lt, hf1nn]
  nlinarith [h1, hJ]

/-- Witness for C4 (amended): at `C = diag(-1000, 0)`, `F = I`,
`plastic_J = 1`, all hypotheses hold concretely and the written
`plastic_J` strictly decreases. -/
theorem snow_clamp_decreases_witness :
    (0 : ℝ) < 1 ∧
    (svd2x2_exact (updatedF cCompress Mat2.identity)).s.y < 39 / 40 ∧
    (svd2x2_exact (updatedF cCompress Mat2.identity)).s.x ≤ 1 + 45 / 10000 ∧
    (constitutive Material.Snow cCompress Mat2.identity 1).2.1 < 1 := by
  have hs2 : (svd2x2_exact (updatedF cCompress Mat2.identity)).s.y < 39 / 40 := by
    rw [updatedF_cCompress, svd_eval_diag09]
    norm_num
  have hs1 : (svd2x2_exact (updatedF cCompress Mat2.identity)).s.x ≤ 1 + 45 / 10000 := by
    rw [updatedF_cCompress, svd_eval_diag09]
    norm_num
  exact ⟨by norm_num, hs2, hs1,
    (snow_clamp_decreases cCompress Mat2.identity 1 (by norm_num) hs2 hs1).2.2⟩

end MpmCore
